import Mathlib

/-!
Shallow embedding of the debounce state machine of the K-State prosthetic
hand sketch (`src/debounce/debounce.ino`, with a near-identical digital-read
variant in `src/unnamed/part_000`).

The C++ code reads the millisecond clock through `millis()`; here every
operation receives the current clock value `now : Nat` explicitly (an
`unsigned long`, hence a value below `2^32`).  The C++ `is_high` receives the
`Debouncer` by value and mutates its local copy; the embedding returns the
mutated copy next to the boolean result, so one call of `is_high` here is one
execution of the C++ function body.  Likewise `can_change` receives its
`ChangeAble` by value, so the pair it returns carries the mutation that the
C++ caller discards.
-/

namespace ProstheticHand

/-- `const unsigned long MAX_UNSIGNED_LONG = 4294967295UL` (debounce.ino line 4). -/
def MAX_UNSIGNED_LONG : Nat := 4294967295

/-- `const unsigned long CHANGE_STATE_INTERVAL = 250` (debounce.ino line 5). -/
def CHANGE_STATE_INTERVAL : Nat := 250

/-- `const int HIGH_THREASHOLD = 500` (debounce.ino line 6); the constant is
declared but never read in the sketch. -/
def HIGH_THREASHOLD : Nat := 500

/-- `enum DebounceState` (debounce.ino lines 10-15). -/
inductive DebounceState where
  | Low
  | PossibleHigh
  | High
  | PossibleLow
deriving DecidableEq, Repr

/-- `struct ChangeAble` (debounce.ino lines 17-20): the change gate, a flag
plus the timestamp of the last transition. -/
structure ChangeAble where
  can_change : Bool
  last_time : Nat
deriving DecidableEq, Repr

/-- `struct Debouncer` (debounce.ino lines 22-26). -/
structure Debouncer where
  state : DebounceState
  change : ChangeAble
  pin : Nat
deriving DecidableEq, Repr

/-- `default_debounce_state` (debounce.ino lines 31-33). -/
def default_debounce_state : DebounceState := DebounceState.Low

/-- `default_change_able` (debounce.ino lines 36-41): `{ true, millis() }`,
with the `millis()` value passed in as `now`. -/
def default_change_able (now : Nat) : ChangeAble := ⟨true, now⟩

/-- `new_debouncer` (debounce.ino lines 44-50). -/
def new_debouncer (now : Nat) (pin : Nat) : Debouncer :=
  ⟨default_debounce_state, default_change_able now, pin⟩

/-- `can_change` (debounce.ino lines 107-129).  The C++ function mutates its
by-value parameter `c` when the elapsed check succeeds; the returned pair is
(return value, final value of `c`).  In the overflow branch both operands of
`total_time - c.last_time` are `unsigned long` values with
`c.last_time <= MAX_UNSIGNED_LONG`, so `Nat` subtraction agrees with the C++
unsigned subtraction, and `diffrence + now < 2^32` because `now < c.last_time`
there, so the addition does not wrap either. -/
def can_change (c : ChangeAble) (interval_milli_seconds : Nat) (now : Nat) :
    Bool × ChangeAble :=
  if c.can_change then
    (true, c)
  else if now < c.last_time then
    -- millis() overflowed
    let total_time := MAX_UNSIGNED_LONG
    let diffrence := total_time - c.last_time
    let current_total_time := diffrence + now
    if current_total_time > interval_milli_seconds then
      (true, { c with can_change := true })
    else
      (false, c)
  else if now - c.last_time ≥ interval_milli_seconds then
    (true, { c with can_change := true })
  else
    (false, c)

/-- Input conditioning inside `is_high` (debounce.ino lines 58-65): the analog
sample is turned into a boolean by `current_input > 155` (the literal `155`,
not the `HIGH_THREASHOLD` constant). -/
def condition_input (sample : Nat) : Bool := decide (155 < sample)

/-- The `switch (debouncer.state)` of `is_high` (debounce.ino lines 67-100),
one `some` per executed `return`; `none` would mean control reached the
defensive `printf` fallback after the switch (lines 101-102).  `current_input`
is the already-conditioned boolean reading (`true` = HIGH).  In the `High`
case the C++ compares `current_input == Low` against the enum constant `Low`,
whose value 0 coincides with the Arduino `LOW`, so it is the `LOW` test.
The gate returned by the inner `can_change` call is discarded, exactly as the
C++ pass-by-value call discards it. -/
def is_high_switch (debouncer : Debouncer) (current_input : Bool) (now : Nat) :
    Option (Bool × Debouncer) :=
  match debouncer.state with
  | DebounceState.Low =>
      if current_input then
        some (false, { debouncer with
          change := default_change_able now, state := DebounceState.PossibleHigh })
      else
        some (false, debouncer)
  | DebounceState.PossibleHigh =>
      if current_input && (can_change debouncer.change CHANGE_STATE_INTERVAL now).1 then
        some (true, { debouncer with
          state := DebounceState.High, change := default_change_able now })
      else if !current_input then
        some (false, { debouncer with
          state := DebounceState.Low, change := default_change_able now })
      else
        some (false, debouncer)
  | DebounceState.High =>
      if !current_input then
        some (true, { debouncer with
          change := default_change_able now, state := DebounceState.PossibleLow })
      else
        some (true, debouncer)
  | DebounceState.PossibleLow =>
      if !current_input && (can_change debouncer.change CHANGE_STATE_INTERVAL now).1 then
        some (false, { debouncer with
          change := default_change_able now, state := DebounceState.Low })
      else if current_input then
        some (true, { debouncer with
          state := DebounceState.High, change := default_change_able now })
      else
        some (true, debouncer)

/-- `is_high` (debounce.ino lines 57-103) on an already-conditioned boolean
reading: the switch, with the fallback value `(false, debouncer)` of
lines 101-102 if the switch were ever missed. -/
def is_high (debouncer : Debouncer) (current_input : Bool) (now : Nat) :
    Bool × Debouncer :=
  (is_high_switch debouncer current_input now).getD (false, debouncer)

/-- `is_high` on a raw analog sample, composing the thresholding of
lines 58-65 with the switch. -/
def is_high_analog (debouncer : Debouncer) (sample : Nat) (now : Nat) :
    Bool × Debouncer :=
  is_high debouncer (condition_input sample) now

/-- Debouncer values reachable from `new_debouncer` by any sequence of polls,
each poll feeding the state returned by the previous one (the persistence the
spec requires of `poll`). -/
inductive Reachable : Debouncer → Prop where
  | init (now pin : Nat) : Reachable (new_debouncer now pin)
  | step (db : Debouncer) (r : Bool) (now : Nat) :
      Reachable db → Reachable (is_high db r now).2

/-! ### Helper lemmas -/

/-- Fast path of `can_change`: with the flag already set it returns `true`
and leaves the gate untouched. -/
lemma can_change_of_eligible (c : ChangeAble) (i now : Nat)
    (h : c.can_change = true) : can_change c i now = (true, c) := by
  simp [can_change, h]

/-- A `can_change` call that answers `true` always hands back a gate whose
flag is set. -/
lemma can_change_sets_eligible (c : ChangeAble) (i now : Nat)
    (h : (can_change c i now).1 = true) :
    (can_change c i now).2.can_change = true := by
  by_cases hc : c.can_change = true
  · simp [can_change, hc]
  · simp only [can_change, hc] at h ⊢
    split_ifs at h ⊢ <;> simp_all

/-- One poll never clears the gate flag. -/
lemma is_high_preserves_eligible (db : Debouncer) (r : Bool) (now : Nat)
    (h : db.change.can_change = true) :
    (is_high db r now).2.change.can_change = true := by
  obtain ⟨s, c, p⟩ := db
  cases s <;> cases r <;>
    simp_all [is_high, is_high_switch, default_change_able,
      can_change_of_eligible _ _ _ h]

/-- Every reachable debouncer carries a set gate flag: the constructor sets
it and no poll clears it. -/
lemma reachable_eligible {db : Debouncer} (h : Reachable db) :
    db.change.can_change = true := by
  induction h with
  | init now pin => rfl
  | step db r now _ ih => exact is_high_preserves_eligible db r now ih

/-- Each poll either returns the debouncer unchanged or installs the gate
`{ true, now }`. -/
lemma is_high_result_cases (db : Debouncer) (r : Bool) (now : Nat) :
    (is_high db r now).2 = db ∨ (is_high db r now).2.change = ⟨true, now⟩ := by
  obtain ⟨s, c, p⟩ := db
  cases s <;> cases r <;>
    simp [is_high, is_high_switch, default_change_able] <;>
    split_ifs <;> simp

/-! ### Claims -/

/-- C1 (code bug witnessed on the code as written): a 3 ms high pulse — far
below `CHANGE_STATE_INTERVAL = 250` — already drives the fresh debouncer to
`High` and makes it output `true` on the second poll (and even on the closing
`low` poll), because every gate is created with `can_change = true`, so the
cooldown never blocks.  The claim that such a short pulse outputs `false`
throughout is therefore violated by the code. -/
theorem short_pulse_emits_true :
    (is_high (new_debouncer 0 17) true 1).1 = false ∧
    (is_high (is_high (new_debouncer 0 17) true 1).2 true 2).1 = true ∧
    (is_high (is_high (is_high (new_debouncer 0 17) true 1).2 true 2).2
        false 3).1 = true ∧
    3 < CHANGE_STATE_INTERVAL := by
  decide

/-- C2 (code bug witnessed on the code as written): in `PossibleHigh` with a
high reading the code commits to `High` and outputs `true` after only 1 ms,
although `CHANGE_STATE_INTERVAL = 250` ms have not elapsed since the gate was
reset at time 0 — the gate flag is `true`, so `can_change` succeeds on its
fast path and the "else stay `PossibleHigh`" case of the claim is never
taken.  The shown state is reachable (see `short_pulse_emits_true`). -/
theorem possible_high_commits_without_cooldown :
    is_high ⟨DebounceState.PossibleHigh, ⟨true, 0⟩, 17⟩ true 1 =
      (true, ⟨DebounceState.High, ⟨true, 1⟩, 17⟩) ∧
    1 - 0 < CHANGE_STATE_INTERVAL := by
  decide

/-- C3: every poll that changes the state installs the gate
`{ can_change := true, last_time := now }`, and the constructor installs the
same gate. -/
theorem gate_reset_on_transition (db : Debouncer) (r : Bool) (now pin : Nat)
    (h : (is_high db r now).2.state ≠ db.state) :
    (is_high db r now).2.change = ⟨true, now⟩ ∧
    (new_debouncer now pin).change = ⟨true, now⟩ := by
  refine ⟨?_, rfl⟩
  rcases is_high_result_cases db r now with he | hc
  · exact absurd (by rw [he]) h
  · exact hc

/-- Witness for C3 at a concrete transition: `Low` with a high reading at
time 5 moves to `PossibleHigh` and the gate becomes `{ true, 5 }`. -/
theorem gate_reset_on_transition_witness :
    (is_high ⟨DebounceState.Low, ⟨true, 0⟩, 17⟩ true 5).2.change = ⟨true, 5⟩ ∧
    (new_debouncer 5 3).change = ⟨true, 5⟩ :=
  gate_reset_on_transition ⟨DebounceState.Low, ⟨true, 0⟩, 17⟩ true 5 3
    (by decide)

/-- C4: from every reachable debouncer the gate flag is set, so every
`can_change` call made from it answers `true` through the fast path and
returns the gate unchanged — the elapsed-time and wraparound arithmetic is
dead code during normal operation. -/
theorem reachable_gate_always_eligible (db : Debouncer) (h : Reachable db) :
    db.change.can_change = true ∧
    ∀ i now, can_change db.change i now = (true, db.change) :=
  ⟨reachable_eligible h,
   fun i now => can_change_of_eligible db.change i now (reachable_eligible h)⟩

/-- Witness for C4 at the freshly constructed debouncer. -/
theorem reachable_gate_always_eligible_witness :
    (new_debouncer 0 17).change.can_change = true ∧
    ∀ i now, can_change (new_debouncer 0 17).change i now =
      (true, (new_debouncer 0 17).change) :=
  reachable_gate_always_eligible (new_debouncer 0 17) (Reachable.init 0 17)

/-- C5: for every debouncer (reachable ones included), the boolean a poll
returns is `true` exactly when the state after the poll is `High` or
`PossibleLow`. -/
theorem output_iff_high_or_possible_low (db : Debouncer) (r : Bool) (now : Nat) :
    (is_high db r now).1 = true ↔
      ((is_high db r now).2.state = DebounceState.High ∨
       (is_high db r now).2.state = DebounceState.PossibleLow) := by
  obtain ⟨s, c, p⟩ := db
  cases s <;> cases r <;>
    simp [is_high, is_high_switch] <;>
    split_ifs <;> simp

/-- C6 counterexample: with the gate `{ false, 4294967200 }`, interval 250
and post-wrap clock `now = 155`, the computed elapsed value
`(MAX_UNSIGNED_LONG - 4294967200) + 155 = 250` reaches the interval, yet
`can_change` answers `false` — the wraparound branch compares with a strict
`>`, so eligibility does NOT arrive at `now = 155` as claimed. -/
theorem can_change_wrap_at_boundary_counterexample :
    (can_change ⟨false, 4294967200⟩ 250 155).1 = false ∧
    (MAX_UNSIGNED_LONG - 4294967200) + 155 ≥ 250 := by
  decide

/-- C6 amended: when the gate flag is clear and the clock has wrapped
(`now < last_time`), `can_change` computes
`elapsed = (MAX_UNSIGNED_LONG - last_time) + now` and answers `true`,
setting the flag of the returned gate, exactly when `elapsed` STRICTLY
exceeds the interval; with `last_time = 4294967200` and interval 250 the
gate becomes eligible first at `now = 156`, and stays ineligible for every
`now ≤ 155`. -/
theorem can_change_wrap_strict (last i now : Nat) (h : now < last) :
    ((can_change ⟨false, last⟩ i now).1 = true ↔
      (MAX_UNSIGNED_LONG - last) + now > i) ∧
    (can_change ⟨false, last⟩ i now).2.can_change =
      (can_change ⟨false, last⟩ i now).1 ∧
    (can_change ⟨false, 4294967200⟩ 250 156).1 = true ∧
    (can_change ⟨false, 4294967200⟩ 250 155).1 = false := by
  refine ⟨?_, ?_, by decide, by decide⟩ <;>
    simp [can_change, h] <;> split_ifs <;> simp_all

/-- Witness for C6 amended: a concrete wrapped clock, 10 ms before the wrap
and 5 ms after it, with interval 3: the elapsed value exceeds the interval
and `can_change` answers `true`. -/
theorem can_change_wrap_strict_witness :
    (can_change ⟨false, 4294967285⟩ 3 5).1 = true :=
  ((can_change_wrap_strict 4294967285 3 5 (by decide)).1).mpr (by decide)

/-- C7 (code bug witnessed on the code as written): from `PossibleLow` a
single high reading does return to `High` immediately with output `true`
(the first conjunct, as the claim states), but the commit `PossibleLow` to
`Low` also happens on the very first low poll, only 1 ms after the gate
reset — the claimed necessity of a full `CHANGE_STATE_INTERVAL` wait is
violated because the gate is always reset with `can_change = true`. -/
theorem possible_low_cancel_and_early_commit :
    is_high ⟨DebounceState.PossibleLow, ⟨true, 0⟩, 17⟩ true 1 =
      (true, ⟨DebounceState.High, ⟨true, 1⟩, 17⟩) ∧
    is_high ⟨DebounceState.PossibleLow, ⟨true, 0⟩, 17⟩ false 1 =
      (false, ⟨DebounceState.Low, ⟨true, 1⟩, 17⟩) ∧
    1 - 0 < CHANGE_STATE_INTERVAL := by
  decide

/-- C8: with the gate flag set, `can_change` answers `true` for every
interval and every clock value and returns the gate unchanged (fast path);
and after any `can_change` call that answered `true`, every further call on
the gate it returned again answers `true` and leaves that gate unchanged,
until the next reset. -/
theorem can_change_fast_path (c : ChangeAble) (i now i2 now2 : Nat) :
    (c.can_change = true → can_change c i now = (true, c)) ∧
    ((can_change c i now).1 = true →
      can_change (can_change c i now).2 i2 now2 =
        (true, (can_change c i now).2)) :=
  ⟨can_change_of_eligible c i now,
   fun h => can_change_of_eligible _ i2 now2 (can_change_sets_eligible c i now h)⟩

/-- Witness for C8: a concrete eligible gate takes the fast path. -/
theorem can_change_fast_path_witness :
    can_change ⟨true, 7⟩ 250 9 = (true, ⟨true, 7⟩) :=
  (can_change_fast_path ⟨true, 7⟩ 250 9 0 0).1 rfl

/-- C9: the state switch of `is_high` answers on every input — all four
states, both readings, both gate-flag values, all timestamps — so the
defensive fallback after the switch is never the value of `is_high`. -/
theorem is_high_total (db : Debouncer) (r : Bool) (now : Nat) :
    is_high_switch db r now = some (is_high db r now) := by
  obtain ⟨s, c, p⟩ := db
  cases s <;> cases r <;>
    simp [is_high, is_high_switch] <;> split_ifs <;> simp

/-- C10 counterexample: the sample 300 is conditioned to `true` although it
does not exceed the declared constant `HIGH_THREASHOLD = 500` — the code
thresholds at the literal 155, not at the constant. -/
theorem threshold_literal_counterexample :
    condition_input 300 = true ∧ ¬ (300 > HIGH_THREASHOLD) := by
  decide

/-- C10 amended: the boolean fed to the state machine by the analog poll is
`condition_input sample`, which is `true` exactly when the sample strictly
exceeds the literal threshold 155; it is a pure function of the sample
alone (the declared `HIGH_THREASHOLD` constant is unused). -/
theorem condition_input_threshold (sample : Nat) :
    (condition_input sample = true ↔ 155 < sample) ∧
    (∀ db now, is_high_analog db sample now =
      is_high db (condition_input sample) now) := by
  exact ⟨by simp [condition_input], fun db now => rfl⟩

end ProstheticHand
